import Mathlib

/-!
Shallow embedding of the BLS visa booking console front end
(src/frontend/src/App.js) and verification of its specification.

The embedding models the React client state as explicit records and each
handler of interest as a pure state-transition function.  Asynchronous
request/response calls are modelled by passing the eventual response as an
explicit argument to the continuation that the source runs when the promise
resolves; the outbound Gateway calls a handler issues are returned as an
explicit list.
-/

/-- JSON-like values exchanged with the backend and held in client state.
JS undefined is modelled as null (both compare unequal to every string and
are falsy, which is all the source relies on). -/
inductive JVal where
  | null : JVal
  | bool : Bool → JVal
  | num : Int → JVal
  | str : String → JVal
  | arr : List JVal → JVal
  | obj : List (String × JVal) → JVal

/-- Property access v[k] on a JSON value: field lookup on objects, undefined
(modelled as null) otherwise. -/
def jget (v : JVal) (k : String) : JVal :=
  match v with
  | JVal.obj fields => (fields.lookup k).getD JVal.null
  | _ => JVal.null

/-- JS strict equality of a JSON value against a string literal, as in
data.type === "applicant_created": true only when the value is that string. -/
def jStrEq (v : JVal) (s : String) : Bool :=
  match v with
  | JVal.str u => u == s
  | _ => false

/-- JS truthiness of a JSON value, as used by !systemStatus.is_running. -/
def jTruthy (v : JVal) : Bool :=
  match v with
  | JVal.null => false
  | JVal.bool b => b
  | JVal.num n => n != 0
  | JVal.str s => s != ""
  | JVal.arr _ => true
  | JVal.obj _ => true

/-- The message banner state set by showMessage(text, type). -/
structure Notification where
  text : String
  mtype : String
deriving DecidableEq

/-- App-level client state: the four collections plus the message banner.
The systemStatus singleton is held as a raw JSON value because the push
handler stores the data field of the event verbatim. -/
structure AppState where
  applicants : List JVal
  credentials : List JVal
  systemStatus : JVal
  bookings : List JVal
  message : Notification

/-- Model of showMessage(text, type): replaces the message banner.
The 5-second auto-clear timeout is irrelevant to the claims and elided. -/
def showMessage (st : AppState) (text : String) (mtype : String) : AppState :=
  { st with message := { text := text, mtype := mtype } }

/-- Booking form draft owned by the BLSAutomation component. -/
structure BookingForm where
  location : String
  visa_type : String
  visa_sub_type : String
  category : String
  appointment_for : String
  number_of_members : Int
  schengen_visa_history : String
  has_premium_lounge : Bool
  family_group_eligible : Bool
  notes : String
deriving DecidableEq

/-- Validation verdict returned by POST /bls/validate-category. -/
structure CategoryValidation where
  is_valid : Bool
  message : String
  recommended_categories : List String
deriving DecidableEq

/-- Visa info loaded from GET /bls/visa-info.  Mappings are association
lists keyed by location or category name. -/
structure VisaInfo where
  locations : List String
  categories_by_location : List (String × List String)
  category_requirements : List (String × String)
  visa_types : List String
  visa_sub_types : List String
  schengen_history_options : List (String × String)

/-- Outbound request/response Gateway calls a handler can issue. -/
inductive GatewayCall where
  | getApplicants
  | getCredentials
  | getStatus
  | getBookings
  | postValidateCategory (location : String) (category : String)
      (schengen_visa_history : String)
  | postBookAppointment (draft : BookingForm)
  | postStart
  | postStop
deriving DecidableEq

/-- Inbound WebSocket frame: either JSON.parse succeeded yielding a value,
or it threw (the malformed case carries the raw text). -/
inductive WsFrame where
  | parsed : JVal → WsFrame
  | malformed : String → WsFrame

/-- Side effects the WebSocket message handler can trigger.  Re-fetches are
recorded as effects because the source fires fetchX() without awaiting. -/
inductive SyncEffect where
  | refetchApplicants
  | refetchCredentials
  | refetchBookings
  | closeConnection
  | consoleLog (text : String)
deriving DecidableEq

/-- Model of the ws.onmessage handler: JSON.parse inside try/catch, then an
if/else chain on data.type.  The catch branch only logs the raw payload. -/
def ws_onmessage (st : AppState) (frame : WsFrame) : AppState × List SyncEffect :=
  match frame with
  | WsFrame.malformed raw =>
      (st, [SyncEffect.consoleLog ("WebSocket message received: " ++ raw)])
  | WsFrame.parsed v =>
      let t := jget v "type"
      if jStrEq t "applicant_created" || jStrEq t "applicant_updated" then
        (st, [SyncEffect.refetchApplicants])
      else if jStrEq t "credential_created" || jStrEq t "credential_updated" then
        (st, [SyncEffect.refetchCredentials])
      else if jStrEq t "system_status" || jStrEq t "system_started"
          || jStrEq t "system_stopped" then
        ({ st with systemStatus := jget v "data" }, [])
      else if jStrEq t "booking_completed" then
        (showMessage st "Booking completed successfully!" "success",
         [SyncEffect.refetchBookings])
      else
        (st, [])

/-- The event types the dispatch chain of ws.onmessage recognizes. -/
def recognizedEventType (t : JVal) : Bool :=
  jStrEq t "applicant_created" || jStrEq t "applicant_updated"
    || jStrEq t "credential_created" || jStrEq t "credential_updated"
    || jStrEq t "system_status" || jStrEq t "system_started"
    || jStrEq t "system_stopped" || jStrEq t "booking_completed"

theorem jStrEq_str (a b : String) : jStrEq (JVal.str a) b = (a == b) := rfl

/-- Sample object state used to instantiate universally quantified theorems. -/
def appStateSample : AppState :=
  { applicants := [JVal.obj [("id", JVal.str "a1")]]
    credentials := []
    systemStatus := JVal.obj [("is_running", JVal.bool false), ("current_task", JVal.null)]
    bookings := [JVal.obj [("id", JVal.str "b1")]]
    message := { text := "", mtype := "" } }

/-- C5: a parsed push message whose type is not one of the recognized event
types leaves the state unchanged and triggers no effect (the handler is a
total function, so no error is raised either). -/
theorem ws_onmessage_unknown_type_ignored (st : AppState) (v : JVal)
    (h : recognizedEventType (jget v "type") = false) :
    ws_onmessage st (WsFrame.parsed v) = (st, []) := by
  simp only [recognizedEventType, Bool.or_eq_false_iff] at h
  obtain ⟨⟨⟨⟨⟨⟨⟨h1, h2⟩, h3⟩, h4⟩, h5⟩, h6⟩, h7⟩, h8⟩ := h
  simp [ws_onmessage, h1, h2, h3, h4, h5, h6, h7, h8]

/-- C5 witness: a concrete future event type is ignored. -/
theorem ws_onmessage_unknown_type_ignored_witness :
    recognizedEventType (jget (JVal.obj [("type", JVal.str "future_event")]) "type") = false
      ∧ ws_onmessage appStateSample
          (WsFrame.parsed (JVal.obj [("type", JVal.str "future_event")]))
        = (appStateSample, []) :=
  ⟨by decide, ws_onmessage_unknown_type_ignored appStateSample
      (JVal.obj [("type", JVal.str "future_event")]) (by decide)⟩

/-- C6: a malformed (non-JSON) frame is logged and dropped: the state, hence
every collection, is unchanged, and the handler never closes the connection. -/
theorem ws_onmessage_malformed_dropped (st : AppState) (raw : String) :
    ws_onmessage st (WsFrame.malformed raw)
        = (st, [SyncEffect.consoleLog ("WebSocket message received: " ++ raw)])
      ∧ SyncEffect.closeConnection ∉ (ws_onmessage st (WsFrame.malformed raw)).2 := by
  constructor
  · rfl
  · simp [ws_onmessage]

/-- C7: a push event whose type is system_status, system_started or
system_stopped replaces the systemStatus singleton with the data field of the
event verbatim; nothing is merged and nothing else changes. -/
theorem ws_onmessage_system_status_replaces (st : AppState) (v : JVal)
    (h : jget v "type" = JVal.str "system_status"
        ∨ jget v "type" = JVal.str "system_started"
        ∨ jget v "type" = JVal.str "system_stopped") :
    ws_onmessage st (WsFrame.parsed v)
      = ({ st with systemStatus := jget v "data" }, []) := by
  rcases h with h | h | h <;> simp [ws_onmessage, h, jStrEq_str]

/-- C7 witness: a concrete system_started event replaces the singleton with
its data field. -/
theorem ws_onmessage_system_status_replaces_witness :
    jget (JVal.obj [("type", JVal.str "system_started"),
        ("data", JVal.obj [("is_running", JVal.bool true)])]) "type"
        = JVal.str "system_started"
      ∧ ws_onmessage appStateSample
          (WsFrame.parsed (JVal.obj [("type", JVal.str "system_started"),
            ("data", JVal.obj [("is_running", JVal.bool true)])]))
        = ({ appStateSample with
              systemStatus :=
                jget (JVal.obj [("type", JVal.str "system_started"),
                  ("data", JVal.obj [("is_running", JVal.bool true)])]) "data" }, []) :=
  ⟨rfl, ws_onmessage_system_status_replaces appStateSample _ (Or.inr (Or.inl rfl))⟩

/-- Component state of BLSAutomation: visa info, the booking form draft, the
last validation verdict and the validation modal flag. -/
structure BLSState where
  visaInfo : Option VisaInfo
  bookingForm : BookingForm
  categoryValidation : CategoryValidation
  showValidationModal : Bool

/-- Combined page state threaded through the handlers: app-level collections
and banner, component state, and the shared loading flag. -/
structure UiState where
  app : AppState
  bls : BLSState
  loading : Bool

/-- Response of POST /bls/book-appointment as seen by handleBookAppointment:
success carries booking_id, failure carries the optional detail that the
catch branch reads from error.response.data.detail. -/
inductive BookResponse where
  | success (booking_id : String)
  | failure (detail : Option String)

/-- Model of handleBookAppointment: if the last verdict is invalid the modal
is shown and the handler returns without calling the Gateway; otherwise one
POST /bls/book-appointment is issued with the current draft and the outcome
is surfaced via showMessage, with loading cleared in the finally block. -/
def handleBookAppointment (st : UiState) (resp : BookResponse) :
    UiState × List GatewayCall :=
  if st.bls.categoryValidation.is_valid = false then
    ({ st with bls := { st.bls with showValidationModal := true } }, [])
  else
    match resp with
    | BookResponse.success bid =>
        ({ st with
            app := showMessage st.app ("Appointment booking completed! ID: " ++ bid) "success"
            loading := false },
         [GatewayCall.postBookAppointment st.bls.bookingForm])
    | BookResponse.failure detail =>
        ({ st with
            app := showMessage st.app (detail.getD "Error booking appointment") "error"
            loading := false },
         [GatewayCall.postBookAppointment st.bls.bookingForm])

/-- Model of the Proceed Anyway button of the validation modal: it sets
showValidationModal to false and then invokes handleBookAppointment again
with a stubbed event object.  The categoryValidation state is not touched. -/
def proceedAnyway (st : UiState) (resp : BookResponse) :
    UiState × List GatewayCall :=
  handleBookAppointment
    { st with bls := { st.bls with showValidationModal := false } } resp

/-- Sample draft with an invalid verdict, used to exercise the handlers. -/
def invalidVerdictSample : UiState :=
  { app := appStateSample
    bls :=
      { visaInfo := none
        bookingForm :=
          { location := "Oran"
            visa_type := "National Visa"
            visa_sub_type := "Tourism"
            category := "ORAN 1"
            appointment_for := "Individual"
            number_of_members := 1
            schengen_visa_history := "rejected"
            has_premium_lounge := false
            family_group_eligible := false
            notes := "" }
        categoryValidation :=
          { is_valid := false
            message := "Category ORAN 1 is not valid for rejected history"
            recommended_categories := [] }
        showValidationModal := true }
    loading := false }

/-- C1 (divergence evidence): with an invalid verdict, the Proceed Anyway
override path issues zero Gateway calls and merely re-opens the validation
modal, because handleBookAppointment re-checks the unchanged verdict; the
booking POST is never reached. -/
theorem proceedAnyway_makes_no_booking_call :
    (proceedAnyway invalidVerdictSample (BookResponse.success "B1")).2 = []
      ∧ (proceedAnyway invalidVerdictSample
          (BookResponse.success "B1")).1.bls.showValidationModal = true
      ∧ invalidVerdictSample.bls.categoryValidation.is_valid = false := by
  exact ⟨rfl, rfl, rfl⟩

/-- C2: submitting with an invalid verdict and no override performs zero
Gateway calls; the only state change is that the validation modal (the
confirmation-required signal) is shown. -/
theorem handleBookAppointment_invalid_no_gateway_call (st : UiState)
    (resp : BookResponse) (h : st.bls.categoryValidation.is_valid = false) :
    handleBookAppointment st resp
      = ({ st with bls := { st.bls with showValidationModal := true } }, []) := by
  simp [handleBookAppointment, h]

/-- C2 witness: the concrete invalid draft triggers the modal and no call. -/
theorem handleBookAppointment_invalid_no_gateway_call_witness :
    invalidVerdictSample.bls.categoryValidation.is_valid = false
      ∧ handleBookAppointment invalidVerdictSample (BookResponse.failure none)
        = ({ invalidVerdictSample with
              bls := { invalidVerdictSample.bls with showValidationModal := true } }, []) :=
  ⟨rfl, handleBookAppointment_invalid_no_gateway_call invalidVerdictSample
      (BookResponse.failure none) rfl⟩

/-- C9: on successful submission with a valid verdict, exactly one booking
call carrying the draft is issued, the operator is notified via the banner
with the returned booking identifier, and the Bookings collection held by
the client is unchanged by the submission itself (no optimistic insert). -/
theorem handleBookAppointment_success_no_optimistic_insert (st : UiState)
    (bid : String) (h : st.bls.categoryValidation.is_valid = true) :
    (handleBookAppointment st (BookResponse.success bid)).1.app.bookings
        = st.app.bookings
      ∧ (handleBookAppointment st (BookResponse.success bid)).2
        = [GatewayCall.postBookAppointment st.bls.bookingForm]
      ∧ (handleBookAppointment st (BookResponse.success bid)).1.app.message
        = { text := "Appointment booking completed! ID: " ++ bid, mtype := "success" } := by
  simp [handleBookAppointment, h, showMessage]

/-- Sample state identical to invalidVerdictSample except the verdict is
valid, used to exercise the success path. -/
def validVerdictSample : UiState :=
  { invalidVerdictSample with
      bls := { invalidVerdictSample.bls with
        categoryValidation := { is_valid := true, message := "", recommended_categories := [] }
        showValidationModal := false } }

/-- C9 witness: the concrete valid draft books once and leaves bookings as
they were. -/
theorem handleBookAppointment_success_no_optimistic_insert_witness :
    validVerdictSample.bls.categoryValidation.is_valid = true
      ∧ ((handleBookAppointment validVerdictSample (BookResponse.success "B7")).1.app.bookings
          = validVerdictSample.app.bookings
        ∧ (handleBookAppointment validVerdictSample (BookResponse.success "B7")).2
          = [GatewayCall.postBookAppointment validVerdictSample.bls.bookingForm]
        ∧ (handleBookAppointment validVerdictSample (BookResponse.success "B7")).1.app.message
          = { text := "Appointment booking completed! ID: " ++ "B7", mtype := "success" }) :=
  ⟨rfl, handleBookAppointment_success_no_optimistic_insert validVerdictSample "B7" rfl⟩

/-- Model of the onChange of the Number of Members input: the form stores
parseInt of the typed text directly.  The input merely declares min and max
HTML attributes; no clamping happens in the state mutation. -/
def numberOfMembersOnChange (form : BookingForm) (parsedValue : Int) : BookingForm :=
  { form with number_of_members := parsedValue }

/-- Declared min attribute of the Number of Members input. -/
def numberOfMembersInputMin : Int := 1

/-- Declared max attribute of the Number of Members input. -/
def numberOfMembersInputMax : Int := 10

/-- Sample draft with appointment_for set to Family. -/
def familyFormSample : BookingForm :=
  { invalidVerdictSample.bls.bookingForm with appointment_for := "Family" }

/-- C4 (divergence evidence): with appointment_for = Family, typing 15 into
the Number of Members input stores 15 in the draft, exceeding the declared
max attribute of 10; the mutation performs no clamping. -/
theorem numberOfMembers_mutation_unclamped :
    familyFormSample.appointment_for = "Family"
      ∧ (numberOfMembersOnChange familyFormSample 15).number_of_members = 15
      ∧ numberOfMembersInputMax = 10
      ∧ (numberOfMembersOnChange familyFormSample 15).number_of_members
          > numberOfMembersInputMax := by
  refine ⟨rfl, rfl, rfl, ?_⟩
  decide

/-- Model of the disabled attribute of the Book Appointment submit button:
disabled = loading or not systemStatus.is_running. -/
def bookAppointmentButtonDisabled (st : UiState) : Bool :=
  st.loading || !(jTruthy (jget st.app.systemStatus "is_running"))

/-- C10: whenever the system is not running (is_running falsy) or a request
is in flight (loading), the Book Appointment submit control is disabled, so
the form cannot initiate a booking Gateway call while the system is stopped. -/
theorem bookAppointment_button_disabled_when_stopped (st : UiState)
    (h : jTruthy (jget st.app.systemStatus "is_running") = false
        ∨ st.loading = true) :
    bookAppointmentButtonDisabled st = true := by
  rcases h with h | h <;> simp [bookAppointmentButtonDisabled, h]

/-- C10 witness: with the sample status object (is_running = false) the
button is disabled. -/
theorem bookAppointment_button_disabled_when_stopped_witness :
    (jTruthy (jget invalidVerdictSample.app.systemStatus "is_running") = false
        ∨ invalidVerdictSample.loading = true)
      ∧ bookAppointmentButtonDisabled invalidVerdictSample = true :=
  ⟨Or.inl rfl, bookAppointment_button_disabled_when_stopped invalidVerdictSample (Or.inl rfl)⟩

/-- Model of the expression categories[0] || "ORAN 1" choosing the category
after a location change: the first entry when present and truthy (a
non-empty string), otherwise the literal fallback "ORAN 1". -/
def newCategoryFor (categories : List String) : String :=
  match categories with
  | [] => "ORAN 1"
  | c :: _ => if c = "" then "ORAN 1" else c

/-- Model of handleLocationChange(location): returns early when visaInfo is
still null; otherwise sets location and the new category on the form and
fires validateCategory(newCategory, bookingForm.schengen_visa_history).
That call posts bookingForm.location read from the render closure, which
still holds the previous location. -/
def handleLocationChange (st : UiState) (location : String) :
    UiState × List GatewayCall :=
  match st.bls.visaInfo with
  | none => (st, [])
  | some vi =>
      let categories := (vi.categories_by_location.lookup location).getD []
      let newCategory := newCategoryFor categories
      ({ st with bls := { st.bls with
            bookingForm := { st.bls.bookingForm with
              location := location
              category := newCategory } } },
       [GatewayCall.postValidateCategory st.bls.bookingForm.location newCategory
          st.bls.bookingForm.schengen_visa_history])

/-- Sample visa info: Oran has two categories, Algiers has an empty list. -/
def visaInfoSample : VisaInfo :=
  { locations := ["Oran", "Algiers"]
    categories_by_location := [("Oran", ["ORAN 1", "ORAN 2"]), ("Algiers", [])]
    category_requirements := [("ORAN 1", "First time applicants")]
    visa_types := ["National Visa"]
    visa_sub_types := ["Tourism"]
    schengen_history_options := [("never", "Never had a Schengen visa")] }

/-- Sample page state whose visa info is visaInfoSample and whose draft sits
on location Oran. -/
def locationChangeSample : UiState :=
  { invalidVerdictSample with
      bls := { invalidVerdictSample.bls with visaInfo := some visaInfoSample } }

/-- C3 counterexample: switching to Algiers, whose category list is empty,
leaves the draft category at the fallback "ORAN 1", which is not a member of
the (empty) Algiers list; no configuration error is signalled (the banner is
unchanged); and the validation request carries the previous location Oran
rather than the new one. -/
theorem handleLocationChange_empty_list_fallback :
    ((visaInfoSample.categories_by_location.lookup "Algiers").getD []) = []
      ∧ (handleLocationChange locationChangeSample "Algiers").1.bls.bookingForm.category
          = "ORAN 1"
      ∧ (handleLocationChange locationChangeSample "Algiers").1.bls.bookingForm.category
          ∉ ((visaInfoSample.categories_by_location.lookup "Algiers").getD [])
      ∧ (handleLocationChange locationChangeSample "Algiers").1.app.message
          = locationChangeSample.app.message
      ∧ (handleLocationChange locationChangeSample "Algiers").2
          = [GatewayCall.postValidateCategory "Oran" "ORAN 1" "rejected"] := by
  refine ⟨rfl, rfl, ?_, rfl, rfl⟩
  decide

/-- C3 as amended: with visa info loaded, a location change sets the new
location, sets the category to the first entry of the new location list when
that entry is a non-empty string (hence a member of the list), and otherwise
to the fixed fallback "ORAN 1" while leaving the app state (hence the banner)
untouched, signalling no configuration error; exactly one validate-category
request is fired, carrying the previous location together with the new
category and the current Schengen history. -/
theorem handleLocationChange_resets_category (st : UiState) (vi : VisaInfo)
    (location : String) (h : st.bls.visaInfo = some vi) :
    (handleLocationChange st location).1.bls.bookingForm.location = location
      ∧ (handleLocationChange st location).1.bls.bookingForm.category
        = newCategoryFor ((vi.categories_by_location.lookup location).getD [])
      ∧ (handleLocationChange st location).1.app = st.app
      ∧ (handleLocationChange st location).2
        = [GatewayCall.postValidateCategory st.bls.bookingForm.location
            (newCategoryFor ((vi.categories_by_location.lookup location).getD []))
            st.bls.bookingForm.schengen_visa_history]
      ∧ (∀ c rest, (vi.categories_by_location.lookup location).getD [] = c :: rest →
          c ≠ "" →
          (handleLocationChange st location).1.bls.bookingForm.category
            ∈ (vi.categories_by_location.lookup location).getD []) := by
  refine ⟨?_, ?_, ?_, ?_, ?_⟩
  · simp [handleLocationChange, h]
  · simp [handleLocationChange, h]
  · simp [handleLocationChange, h]
  · simp [handleLocationChange, h]
  · intro c rest hc hne
    simp [handleLocationChange, h, hc, newCategoryFor, hne]

/-- C3 amended witness: changing the sample state to Oran itself re-selects
ORAN 1, the head of the Oran list, and fires one validation request. -/
theorem handleLocationChange_resets_category_witness :
    locationChangeSample.bls.visaInfo = some visaInfoSample
      ∧ ((handleLocationChange locationChangeSample "Oran").1.bls.bookingForm.location = "Oran"
        ∧ (handleLocationChange locationChangeSample "Oran").1.bls.bookingForm.category
          = newCategoryFor ((visaInfoSample.categories_by_location.lookup "Oran").getD [])
        ∧ (handleLocationChange locationChangeSample "Oran").1.app = locationChangeSample.app
        ∧ (handleLocationChange locationChangeSample "Oran").2
          = [GatewayCall.postValidateCategory locationChangeSample.bls.bookingForm.location
              (newCategoryFor ((visaInfoSample.categories_by_location.lookup "Oran").getD []))
              locationChangeSample.bls.bookingForm.schengen_visa_history]
        ∧ (∀ c rest,
            (visaInfoSample.categories_by_location.lookup "Oran").getD [] = c :: rest →
            c ≠ "" →
            (handleLocationChange locationChangeSample "Oran").1.bls.bookingForm.category
              ∈ (visaInfoSample.categories_by_location.lookup "Oran").getD [])) :=
  ⟨rfl, handleLocationChange_resets_category locationChangeSample visaInfoSample "Oran" rfl⟩

/-- Model of fetchApplicants after GET /applicants resolves: on success the
collection is replaced wholesale; on failure the catch branch logs and calls
showMessage with an error banner.  The returned list records any further
Gateway calls issued inside the handler, of which there are none in either
branch (no automatic retry). -/
def fetchApplicants (st : AppState) (resp : Except Unit (List JVal)) :
    AppState × List GatewayCall :=
  match resp with
  | Except.ok data => ({ st with applicants := data }, [])
  | Except.error _ => (showMessage st "Error fetching applicants" "error", [])

/-- Model of fetchCredentials after GET /credentials resolves. -/
def fetchCredentials (st : AppState) (resp : Except Unit (List JVal)) :
    AppState × List GatewayCall :=
  match resp with
  | Except.ok data => ({ st with credentials := data }, [])
  | Except.error _ => (showMessage st "Error fetching credentials" "error", [])

/-- Model of fetchSystemStatus after GET /bls/status resolves: the catch
branch only logs to the console and shows no banner. -/
def fetchSystemStatus (st : AppState) (resp : Except Unit JVal) :
    AppState × List GatewayCall :=
  match resp with
  | Except.ok data => ({ st with systemStatus := data }, [])
  | Except.error _ => (st, [])

/-- Model of fetchBookings after GET /bls/bookings resolves: the catch
branch only logs to the console and shows no banner. -/
def fetchBookings (st : AppState) (resp : Except Unit (List JVal)) :
    AppState × List GatewayCall :=
  match resp with
  | Except.ok data => ({ st with bookings := data }, [])
  | Except.error _ => (st, [])

/-- C8 counterexample: starting from the sample state whose banner is empty,
a transient failure of the system-status fetch and of the bookings fetch
leaves the banner empty — no transient notification is surfaced to the
operator for those two collection fetches, only a console log. -/
theorem fetch_error_silent_for_status_and_bookings :
    appStateSample.message = { text := "", mtype := "" }
      ∧ (fetchSystemStatus appStateSample (Except.error ())).1 = appStateSample
      ∧ (fetchSystemStatus appStateSample (Except.error ())).1.message
          = { text := "", mtype := "" }
      ∧ (fetchBookings appStateSample (Except.error ())).1 = appStateSample
      ∧ (fetchBookings appStateSample (Except.error ())).1.message
          = { text := "", mtype := "" } := by
  exact ⟨rfl, rfl, rfl, rfl, rfl⟩

/-- C8 as amended: on a transient failure of a collection fetch, the
applicants and credentials fetches surface a transient error banner while
the system-status and bookings fetches only log to the console with no
banner; in every case all four collections are left at their pre-call value
(no partial mutation) and no further Gateway call is issued (no automatic
retry). -/
theorem fetch_error_reverts_state (st : AppState) :
    (fetchApplicants st (Except.error ())).1
        = showMessage st "Error fetching applicants" "error"
      ∧ (fetchApplicants st (Except.error ())).1.applicants = st.applicants
      ∧ (fetchApplicants st (Except.error ())).1.credentials = st.credentials
      ∧ (fetchApplicants st (Except.error ())).1.systemStatus = st.systemStatus
      ∧ (fetchApplicants st (Except.error ())).1.bookings = st.bookings
      ∧ (fetchCredentials st (Except.error ())).1
        = showMessage st "Error fetching credentials" "error"
      ∧ (fetchCredentials st (Except.error ())).1.applicants = st.applicants
      ∧ (fetchCredentials st (Except.error ())).1.credentials = st.credentials
      ∧ (fetchCredentials st (Except.error ())).1.systemStatus = st.systemStatus
      ∧ (fetchCredentials st (Except.error ())).1.bookings = st.bookings
      ∧ (fetchSystemStatus st (Except.error ())).1 = st
      ∧ (fetchBookings st (Except.error ())).1 = st
      ∧ (fetchApplicants st (Except.error ())).2 = []
      ∧ (fetchCredentials st (Except.error ())).2 = []
      ∧ (fetchSystemStatus st (Except.error ())).2 = []
      ∧ (fetchBookings st (Except.error ())).2 = [] := by
  exact ⟨rfl, rfl, rfl, rfl, rfl, rfl, rfl, rfl, rfl, rfl, rfl, rfl, rfl, rfl, rfl, rfl⟩
